import Mathlib

/-!
Verification of the A11yDataViz accessibility-audit engine.

The development shallowly embeds `src/a11y_trees.py` (the five pillar
evaluators), `src/utils.py` (stand-alone color math) and the orchestrator
`run_checks` / `main` pillar-key validation of `src/a11y_linter.py`.

Modelling conventions:
* Python numbers are modelled as `ℚ` (scores, rates, percentages) and `ℝ`
  (WCAG luminance / contrast, which uses a real exponent 2.4).
* `round(x, n)` is modelled with Mathlib's `round` scaled by `10^n`.
* Raising an exception is modelled as `Except.error msg`; code that cannot
  raise is a total function.
* BeautifulSoup's parsed document is modelled as a rose tree of element and
  text nodes (`Node`); each structural query of the source is translated to
  a query on that tree.  The pillar evaluators receive the parsed tree, the
  parse step itself being the external bs4 library.
* The perceptual color distance (external `colorspacious.cspace_convert`,
  used by `is_colorblind_safe`) is kept as an explicit function parameter
  `dist`, as the spec directs for tunable perceptual parameters.
-/

namespace A11y

/-! ## Rounding helpers (Python `round(x, 1)` / `round(x, 2)`) -/

/-- `round(x, 1)` on a rational value. -/
def round1q (x : ℚ) : ℚ := ((round (x * 10) : ℤ) : ℚ) / 10

/-- `round(x, 2)` on a real value (used for evidence ratios). -/
noncomputable def round2r (x : ℝ) : ℝ := ((round (x * 100) : ℤ) : ℝ) / 100

/-! ## Grading utility

`a11y_trees.py` does `from utils import grade`, but `src/utils.py` contains
no `grade` function: the grading table is code of this repository that is
missing from the sources. -/

/-- Modelled from the spec: the grading utility missing from `src/utils.py`.
The spec fixes only that `grade(percentage)` maps a percentage to an ordinal
label via a fixed, monotonically increasing threshold table
("e.g., ≥90 excellent … <50 failing"); the concrete cut points below follow
that example and are otherwise arbitrary policy. -/
def grade (pct : ℚ) : String :=
  if pct ≥ 90 then "Excellent"
  else if pct ≥ 75 then "Good"
  else if pct ≥ 60 then "Fair"
  else if pct ≥ 50 then "Poor"
  else "Failing"

/-- The ordinal position of each grade label ("Failing" lowest). -/
def gradeRank : String → ℕ
  | "Excellent" => 4
  | "Good" => 3
  | "Fair" => 2
  | "Poor" => 1
  | _ => 0

/-! ## Pillar summaries

Every `run_all` of the source builds the same summary dictionary:
`total_score`, `max_score`, `percentage = round(pct, 1)` and
`grade = grade(pct)` with `pct = total / max_score * 100`. -/

structure Summary where
  total_score : ℚ
  max_score : ℚ
  percentage : ℚ
  gradeLabel : String
  deriving Repr, DecidableEq

/-- The summary block shared by every pillar's `run_all`. -/
def mkSummary (total maxScore : ℚ) : Summary :=
  { total_score := total
    max_score := maxScore
    percentage := round1q (total / maxScore * 100)
    gradeLabel := grade (total / maxScore * 100) }

/-! ## Markup tree (BeautifulSoup model) -/

/-- A node of the parsed markup tree: an element with tag name, attributes
and children, or a text node. -/
inductive Node where
  | elem (tag : String) (attrs : List (String × String)) (children : List Node)
  | txt (s : String)
  deriving Repr

/-- A parsed document is a list of root nodes; the parse of the empty
markup string is the empty list. -/
abbrev Soup := List Node

/-- Attribute lookup on an element's attribute list. -/
def getAttr (attrs : List (String × String)) (k : String) : Option String :=
  (attrs.find? (fun p => p.1 = k)).map (fun p => p.2)

/-- Whether the attribute is present (`attrs={"k": True}` filters of bs4). -/
def hasAttr (attrs : List (String × String)) (k : String) : Bool :=
  (getAttr attrs k).isSome

/-- bs4 `class_="c"` matching: `c` is one of the space-separated class
tokens of the element. -/
def hasClass (attrs : List (String × String)) (c : String) : Bool :=
  match getAttr attrs "class" with
  | some s => c ∈ s.splitOn " "
  | none => false

mutual
/-- All element nodes of a subtree satisfying `p`, in document order,
the node itself included (bs4 `find_all` over a tag). -/
def collectN (p : String → List (String × String) → Bool) : Node → List Node
  | .txt _ => []
  | .elem t a cs => (if p t a then [Node.elem t a cs] else []) ++ collectL p cs
/-- All element nodes of a forest satisfying `p`, in document order. -/
def collectL (p : String → List (String × String) → Bool) : List Node → List Node
  | [] => []
  | n :: ns => collectN p n ++ collectL p ns
end

/-- bs4 `soup.find_all(...)` with an element filter. -/
def findAll (soup : Soup) (p : String → List (String × String) → Bool) : List Node :=
  collectL p soup

/-- bs4 `soup.find(...)`: the first match in document order. -/
def findFirst (soup : Soup) (p : String → List (String × String) → Bool) : Option Node :=
  (findAll soup p).head?

/-- The children of an element node (empty for a text node). -/
def childrenOf : Node → List Node
  | .elem _ _ cs => cs
  | .txt _ => []

/-- The attributes of an element node. -/
def attrsOf : Node → List (String × String)
  | .elem _ a _ => a
  | .txt _ => []

/-- The tag name of an element node. -/
def tagOf : Node → String
  | .elem t _ _ => t
  | .txt _ => ""

mutual
/-- bs4 `get_text()`: concatenation of all text descendants. -/
def textOfN : Node → String
  | .txt s => s
  | .elem _ _ cs => textOfL cs
def textOfL : List Node → String
  | [] => ""
  | n :: ns => textOfN n ++ textOfL ns
end

/-- Whether `sub` occurs as a substring of `s` (CSS `[attr*=sub]`); the
needles used by the source are all non-empty. -/
def containsSub (s sub : String) : Bool :=
  (s.splitOn sub).length ≥ 2

/-! ## Color math (`ColorAccessibility` methods of `a11y_trees.py`) -/

/-- Value of one hex digit (`0`-`9`, `a`-`f`, `A`-`F`).  Characters outside
that range map to 0; the class only parses strings already validated by
`_validate_palette` (Python's `int(_, 16)` would raise outside it). -/
def hexDigitVal (c : Char) : ℕ :=
  if 48 ≤ c.toNat ∧ c.toNat ≤ 57 then c.toNat - 48
  else if 97 ≤ c.toNat ∧ c.toNat ≤ 102 then c.toNat - 87
  else if 65 ≤ c.toNat ∧ c.toNat ≤ 70 then c.toNat - 55
  else 0

/-- Whether a character is one of `[0-9A-Fa-f]`. -/
def isHexDigit (c : Char) : Bool :=
  decide ((48 ≤ c.toNat ∧ c.toNat ≤ 57) ∨ (97 ≤ c.toNat ∧ c.toNat ≤ 102) ∨
    (65 ≤ c.toNat ∧ c.toNat ≤ 70))

/-- `re.fullmatch(r"#?[0-9A-Fa-f]{6}", s)`: an optional leading `#`
followed by exactly six hex digits. -/
def validHex (s : String) : Bool :=
  let core := if s.data.head? = some '#' then s.data.tail else s.data
  decide (core.length = 6) && core.all isHexDigit

/-- `_validate_palette`: every palette entry and the background must be a
valid hex color; fails on the first bad entry with Python's
`ValueError(f"Invalid hex color: {c}")` message. -/
def validatePalette (palette : List String) (background : String) : Except String Unit :=
  match (palette ++ [background]).find? (fun c => !validHex c) with
  | some c => .error s!"Invalid hex color: {c}"
  | none => .ok ()

/-- `hex_to_rgb`: strip leading `#`s, parse three two-digit hex pairs,
normalize each to `[0,1]`. -/
noncomputable def hexToRgb (s : String) : ℝ × ℝ × ℝ :=
  let cs := s.data.dropWhile (fun c => c = '#')
  let pair (i : ℕ) : ℕ := 16 * hexDigitVal (cs.getD i '0') + hexDigitVal (cs.getD (i + 1) '0')
  (((pair 0 : ℕ) : ℝ) / 255, ((pair 2 : ℕ) : ℝ) / 255, ((pair 4 : ℕ) : ℝ) / 255)

/-- The per-channel WCAG gamma expansion used by `relative_luminance`. -/
noncomputable def chan (c : ℝ) : ℝ :=
  if c ≤ 0.03928 then c / 12.92 else ((c + 0.055) / 1.055) ^ (2.4 : ℝ)

/-- `relative_luminance`: WCAG relative luminance of a normalized RGB
triple. -/
noncomputable def relativeLuminance (rgb : ℝ × ℝ × ℝ) : ℝ :=
  0.2126 * chan rgb.1 + 0.7152 * chan rgb.2.1 + 0.0722 * chan rgb.2.2

/-- `contrast_ratio`: WCAG contrast of two hex colors,
`(Lmax + 0.05) / (Lmin + 0.05)`. -/
noncomputable def contrastValue (hex1 hex2 : String) : ℝ :=
  let lum1 := relativeLuminance (hexToRgb hex1)
  let lum2 := relativeLuminance (hexToRgb hex2)
  (max lum1 lum2 + 0.05) / (min lum1 lum2 + 0.05)

/-! ## Color pillar -/

/-- The constructor state of `ColorAccessibility`, with its default
thresholds. -/
structure ColorAccessibility where
  palette : List String
  background : String := "#ffffff"
  contrast_threshold_text : ℝ := 4.5
  contrast_threshold_graphic : ℝ := 3.0
  cb_threshold : ℝ := 0.15

/-- All unordered pairs `(x_i, x_j)` with `i < j`, in the nested-loop
order of `is_colorblind_safe`. -/
def upairs {α : Type} : List α → List (α × α)
  | [] => []
  | x :: xs => xs.map (fun y => (x, y)) ++ upairs xs

structure SafetyResult where
  score : ℚ
  safe : Bool
  message : String

/-- `is_colorblind_safe`: count pairs of palette colors whose perceptual
(CIELab) distance is below `cb_threshold * 100`.  The distance function
(external `colorspacious` conversion) is the parameter `dist`. -/
noncomputable def isColorblindSafe (self : ColorAccessibility)
    (dist : String → String → ℝ) (palette : List String) : SafetyResult :=
  let issues := (upairs palette).countP (fun p => decide (dist p.1 p.2 < self.cb_threshold * 100))
  if issues = 0 then ⟨3, true, "Fully colorblind-safe"⟩
  else if issues ≤ 2 then ⟨2, false, s!"{issues} potential confusion pairs"⟩
  else ⟨0, false, s!"{issues} confusion pairs - high risk"⟩

/-- `check_palette_safety`. -/
noncomputable def checkPaletteSafety (self : ColorAccessibility)
    (dist : String → String → ℝ) : SafetyResult :=
  isColorblindSafe self dist self.palette

structure ContrastDetail where
  color : String
  ratioVal : ℝ
  pass : Bool

structure BCResult where
  score : ℚ
  details : List ContrastDetail
  pass_rate : ℚ

/-- `check_background_contrast`: contrast of each palette color against the
background at the text threshold; `pass_count / len(palette)` raises
Python's ZeroDivisionError on an empty palette. -/
noncomputable def checkBackgroundContrast (self : ColorAccessibility) :
    Except String BCResult :=
  let details := self.palette.map (fun c =>
    let r := contrastValue c self.background
    ContrastDetail.mk c (round2r r) (decide (r ≥ self.contrast_threshold_text)))
  let passCount := details.countP (fun d => d.pass)
  if self.palette.length = 0 then .error "division by zero"
  else
    let rate : ℚ := (passCount : ℚ) / (self.palette.length : ℚ)
    let score : ℚ := if rate ≥ 0.9 then 3 else if rate ≥ 0.7 then 2
      else if rate ≥ 0.4 then 1 else 0
    .ok ⟨score, details, round1q (rate * 100)⟩

structure PairDetail where
  pair : String × String
  ratioVal : ℝ
  pass : Bool

structure ACResult where
  score : ℚ
  details : List PairDetail
  pass_rate : ℚ

/-- `check_adjacent_contrast`: contrast of each consecutive palette pair at
the graphics threshold; the denominator is `len(results) or 1`. -/
noncomputable def checkAdjacentContrast (self : ColorAccessibility) : ACResult :=
  let details := (self.palette.zip self.palette.tail).map (fun p =>
    let r := contrastValue p.1 p.2
    PairDetail.mk p (round2r r) (decide (r ≥ self.contrast_threshold_graphic)))
  let passCount := details.countP (fun d => d.pass)
  let total : ℕ := if details.length = 0 then 1 else details.length
  let rate : ℚ := (passCount : ℚ) / (total : ℚ)
  let score : ℚ := if rate ≥ 0.9 then 3 else if rate ≥ 0.7 then 2
    else if rate ≥ 0.4 then 1 else 0
  ⟨score, details, round1q (rate * 100)⟩

structure GrayResult where
  score : ℚ
  unique : Bool
  luminances : List ℝ

/-- `check_grayscale`: luminances rounded to two decimals must be
distinct; partial credit from the distinct fraction. -/
noncomputable def checkGrayscale (self : ColorAccessibility) : GrayResult :=
  let lums := self.palette.map (fun c => round2r (relativeLuminance (hexToRgb c)))
  let uniq := lums.dedup.length
  let total := lums.length
  let uniqueAll := decide (uniq = total)
  let score : ℚ := if uniqueAll then 3
    else if (uniq : ℚ) ≥ (total : ℚ) * 0.8 then 2
    else if (uniq : ℚ) ≥ (total : ℚ) * 0.5 then 1 else 0
  ⟨score, uniqueAll, lums⟩

structure MsgResult where
  score : ℚ
  message : String
  deriving Repr, DecidableEq

/-- `check_pattern_encoding`. -/
def checkPatternEncoding (hasPatterns : Bool) : MsgResult :=
  if hasPatterns then ⟨3, "Uses patterns/shapes in addition to color"⟩
  else ⟨0, "Color is sole encoding - risk"⟩

/-- `check_alt_theme`. -/
def checkAltTheme (altPalettes : List (List String)) : MsgResult :=
  if !altPalettes.isEmpty then ⟨3, "Alternate themes available"⟩
  else ⟨0, "No alternate theme configured"⟩

/-- `check_direct_labels`: any element with class `label`. -/
def checkDirectLabels (chartSoup : Soup) : MsgResult :=
  let labels := findAll chartSoup (fun _ a => hasClass a "label")
  if !labels.isEmpty then ⟨3, "Direct labels present"⟩
  else ⟨0, "No direct labels detected"⟩

structure ColorChecks where
  palette_safety : SafetyResult
  background_contrast : BCResult
  adjacent_contrast : ACResult
  grayscale_test : GrayResult
  pattern_encoding : MsgResult
  alt_theme : MsgResult
  direct_labels : MsgResult

/-- The seven check scores of the color pillar, in declaration order. -/
def colorCheckScores (c : ColorChecks) : List ℚ :=
  [c.palette_safety.score, c.background_contrast.score, c.adjacent_contrast.score,
   c.grayscale_test.score, c.pattern_encoding.score, c.alt_theme.score,
   c.direct_labels.score]

structure ColorResult where
  checks : ColorChecks
  summary : Summary

/-- `ColorAccessibility.run_all` (max_score = 21, i.e. 7 checks × 3). -/
noncomputable def colorRunAll (self : ColorAccessibility)
    (dist : String → String → ℝ) (hasPatterns : Bool)
    (altPalettes : List (List String)) (chartSoup : Soup) :
    Except String ColorResult := do
  let ps := checkPaletteSafety self dist
  let bc ← checkBackgroundContrast self
  let checks : ColorChecks :=
    { palette_safety := ps
      background_contrast := bc
      adjacent_contrast := checkAdjacentContrast self
      grayscale_test := checkGrayscale self
      pattern_encoding := checkPatternEncoding hasPatterns
      alt_theme := checkAltTheme altPalettes
      direct_labels := checkDirectLabels chartSoup }
  pure { checks := checks, summary := mkSummary (colorCheckScores checks).sum 21 }

/-- `ColorAccessibility(palette, background)` followed by `run_all`: the
constructor validates first and fails fast. -/
noncomputable def colorPillar (dist : String → String → ℝ) (palette : List String)
    (background : String) (hasPatterns : Bool) (altPalettes : List (List String))
    (chartSoup : Soup) : Except String ColorResult := do
  let _ ← validatePalette palette background
  colorRunAll { palette := palette, background := background } dist hasPatterns
    altPalettes chartSoup

/-! ## Screen-reader pillar (`ScreenReaderAccessibility`) -/

structure AltTextResult where
  score : ℚ
  message : String
  deriving Repr, DecidableEq

/-- `has_alt_text`: collect trimmed `img` alt attributes and `desc` text;
no non-empty text scores 0, otherwise buckets on the average length. -/
def hasAltText (soup : Soup) : AltTextResult :=
  let imgAlts := (findAll soup (fun t _ => t == "img")).map
    (fun n => ((getAttr (attrsOf n) "alt").getD "").trim)
  let descs := (findAll soup (fun t _ => t == "desc")).map
    (fun n => (textOfN n).trim)
  let texts := (imgAlts ++ descs).filter (fun t => t ≠ "")
  if texts.isEmpty then ⟨0, "No alt text or descriptions"⟩
  else
    let avg : ℚ := ((texts.map String.length).sum : ℚ) / (texts.length : ℚ)
    if avg ≥ 50 then ⟨3, "Detailed descriptions"⟩
    else if avg ≥ 20 then ⟨2, "Basic descriptions"⟩
    else ⟨1, "Minimal descriptions"⟩

structure AriaResult where
  score : ℚ
  roles : List String
  labels : ℕ
  describedby : ℕ
  deriving Repr, DecidableEq

/-- `aria_roles`: score is the number of the three ARIA feature categories
present, capped at 3. -/
def ariaRoles (soup : Soup) : AriaResult :=
  let roles := (findAll soup (fun _ a => hasAttr a "role")).map
    (fun n => (getAttr (attrsOf n) "role").getD "")
  let labels := (findAll soup (fun _ a => hasAttr a "aria-label")).length
  let descby := (findAll soup (fun _ a => hasAttr a "aria-describedby")).length
  let sc : ℕ := min 3 ((if roles.isEmpty then 0 else 1) +
    (if labels = 0 then 0 else 1) + (if descby = 0 then 0 else 1))
  ⟨(sc : ℚ), roles, labels, descby⟩

structure TableResult where
  score : ℚ
  message : Option String
  headers : Option Bool
  caption : Option Bool
  deriving Repr, DecidableEq

/-- `semantic_table`: no `table` scores 0; otherwise
`1 + has_th + has_caption_or_scope`, capped at 3. -/
def semanticTable (soup : Soup) : TableResult :=
  match findFirst soup (fun t _ => t == "table") with
  | none => ⟨0, some "No data table", none, none⟩
  | some tbl =>
    let hasTh := !(findAll (childrenOf tbl) (fun t _ => t == "th")).isEmpty
    let hasCap := !(findAll (childrenOf tbl) (fun t _ => t == "caption")).isEmpty
      || !(findAll (childrenOf tbl) (fun _ a => hasAttr a "scope")).isEmpty
    let sc : ℕ := min 3 (1 + (if hasTh then 1 else 0) + (if hasCap then 1 else 0))
    ⟨(sc : ℚ), none, some hasTh, some hasCap⟩

/-- `re.search(r"h[1-6]", name)`: some position holds `h` followed by a
digit `1`-`6`. -/
def hasHeadingPattern : List Char → Bool
  | c1 :: c2 :: rest =>
    (decide (c1 = 'h') && decide ('1' ≤ c2) && decide (c2 ≤ '6'))
      || hasHeadingPattern (c2 :: rest)
  | _ => false

/-- `int(h.name[1])`: the second character of the tag name as a digit;
Python raises IndexError / ValueError outside that shape. -/
def headingLevelOf (n : Node) : Except String ℤ :=
  match (tagOf n).data.get? 1 with
  | none => .error "string index out of range"
  | some c =>
    if 48 ≤ c.toNat ∧ c.toNat ≤ 57 then .ok ((c.toNat : ℤ) - 48)
    else .error "invalid literal for int"

/-- `all(hs[i+1] - hs[i] <= 1)`: consecutive heading levels never jump up
by more than one. -/
def headingSeqOk : List ℤ → Bool
  | a :: b :: rest => decide (b - a ≤ 1) && headingSeqOk (b :: rest)
  | _ => true

structure HeadingResult where
  score : ℚ
  message : Option String
  levels : Option (List ℤ)
  deriving Repr, DecidableEq

/-- `heading_structure`. -/
def headingStructure (soup : Soup) : Except String HeadingResult := do
  let tags := findAll soup (fun t _ => hasHeadingPattern t.data)
  let hs ← tags.mapM headingLevelOf
  if hs.isEmpty then pure ⟨0, some "No headings", none⟩
  else
    let seq := headingSeqOk hs
    let score : ℚ := if seq && decide (hs.head? = some 1) then 3
      else if seq then 2 else 1
    pure ⟨score, none, some hs⟩

structure TexteqResult where
  score : ℚ
  axes : Bool
  legend : Bool
  deriving Repr, DecidableEq

/-- `check_textual_equivalents`: `g.axis[aria-labelledby]` and
`g.legend[aria-labelledby]` selectors. -/
def checkTextualEquivalents (soup : Soup) : TexteqResult :=
  let axes := !(findAll soup (fun t a =>
    t == "g" && hasClass a "axis" && hasAttr a "aria-labelledby")).isEmpty
  let legend := !(findAll soup (fun t a =>
    t == "g" && hasClass a "legend" && hasAttr a "aria-labelledby")).isEmpty
  let score : ℚ := if axes && legend then 3 else if axes || legend then 1 else 0
  ⟨score, axes, legend⟩

/-- Weak monotonicity of a list of integers; `tabs == sorted(tabs)` holds
exactly when `tabs` is nondecreasing. -/
def nondecreasing : List ℤ → Bool
  | a :: b :: rest => decide (a ≤ b) && nondecreasing (b :: rest)
  | _ => true

structure TabResult where
  score : ℚ
  order : List ℤ
  deriving Repr, DecidableEq

/-- `check_tabindex_order`: `int(tag["tabindex"])` for every element with
the attribute; score 3 only when the list is non-empty and already in
sorted order. -/
def checkTabindexOrder (soup : Soup) : Except String TabResult := do
  let tags := findAll soup (fun _ a => hasAttr a "tabindex")
  let tabs ← tags.mapM (fun n =>
    match ((getAttr (attrsOf n) "tabindex").getD "").toInt? with
    | some v => Except.ok v
    | none => Except.error "invalid literal for int")
  let seq := if tabs.isEmpty then false else nondecreasing tabs
  pure ⟨if seq then 3 else 0, tabs⟩

structure SRChecks where
  alt_text : AltTextResult
  aria_roles : AriaResult
  semantic_table : TableResult
  heading_structure : HeadingResult
  textual_equivalents : TexteqResult
  tabindex_order : TabResult
  deriving Repr, DecidableEq

/-- The six check scores of the screen-reader pillar, in declaration
order. -/
def srCheckScores (c : SRChecks) : List ℚ :=
  [c.alt_text.score, c.aria_roles.score, c.semantic_table.score,
   c.heading_structure.score, c.textual_equivalents.score, c.tabindex_order.score]

structure SRResult where
  checks : SRChecks
  summary : Summary
  deriving Repr, DecidableEq

/-- `ScreenReaderAccessibility.run_all` (max_score = 18, 6 checks × 3);
the checks are evaluated in the dict-literal order of the source. -/
def srRunAll (soup : Soup) : Except String SRResult := do
  let alt := hasAltText soup
  let aria := ariaRoles soup
  let tbl := semanticTable soup
  let hd ← headingStructure soup
  let te := checkTextualEquivalents soup
  let tab ← checkTabindexOrder soup
  let checks : SRChecks := ⟨alt, aria, tbl, hd, te, tab⟩
  pure { checks := checks, summary := mkSummary (srCheckScores checks).sum 18 }

/-! ## Cognitive pillar (`CognitiveAccessibility`) -/

/-- The `chart_elements` configuration slice; every source access uses
`.get(key, default)`, so missing keys are the defaults below. -/
structure ChartElements where
  series : ℕ := 0
  gridlines : ℕ := 0
  legend_entries : ℕ := 0
  encodings : ℕ := 0
  labels : List String := []
  chart_html : Soup := []

structure ElemCountResult where
  series_score : ℚ
  gridlines_score : ℚ
  score : ℚ
  deriving Repr, DecidableEq

/-- `element_count`: bucket the series and gridline counts separately and
average the two sub-scores. -/
def elementCount (e : ChartElements) : ElemCountResult :=
  let ss : ℚ := if e.series = 1 then 3 else if e.series ≤ 12 then 2
    else if e.series ≤ 20 then 1 else 0
  let gs : ℚ := if e.gridlines ≤ 1 then 3 else if e.gridlines ≤ 3 then 2
    else if e.gridlines ≤ 5 then 1 else 0
  ⟨ss, gs, (ss + gs) / 2⟩

structure LegendResult where
  count : ℕ
  score : ℚ
  deriving Repr, DecidableEq

/-- `legend_entries`. -/
def legendEntriesChk (e : ChartElements) : LegendResult :=
  let c := e.legend_entries
  ⟨c, if c ≤ 4 then 3 else if c ≤ 6 then 2 else if c ≤ 8 then 1 else 0⟩

structure EncodingResult where
  encodings : ℕ
  score : ℚ
  deriving Repr, DecidableEq

/-- `encoding_complexity`. -/
def encodingComplexity (e : ChartElements) : EncodingResult :=
  ⟨e.encodings, if e.encodings ≤ 2 then 3 else 0⟩

/-- `re.fullmatch(r"[A-Za-z]{1,3}", lbl)`. -/
def isShortAlpha (l : String) : Bool :=
  decide (1 ≤ l.length ∧ l.length ≤ 3) && l.data.all (fun c => c.isAlpha)

structure LabelingResult where
  total_labels : ℕ
  score : ℚ
  deriving Repr, DecidableEq

/-- `labeling_clarity`: a label longer than 20 characters, or a short
cryptic 1-3 letter label not on the whitelist, marks the set unclear. -/
def labelingClarity (e : ChartElements) : LabelingResult :=
  let whitelist : List String := ["Q1", "Q2", "Q3", "Q4", "USD", "EUR"]
  let unclear := e.labels.any (fun l =>
    decide (l.length > 20) || (isShortAlpha l && decide (l ∉ whitelist)))
  ⟨e.labels.length, if unclear then 0 else 3⟩

/-- `check_visual_grouping`: any element with class `group`. -/
def checkVisualGrouping (chartSoup : Soup) : MsgResult :=
  if !(findAll chartSoup (fun _ a => hasClass a "group")).isEmpty then
    ⟨3, "Grouping"⟩
  else ⟨0, "No grouping"⟩

structure CogChecks where
  element_count : ElemCountResult
  legend_entries : LegendResult
  max_encodings : EncodingResult
  labeling_clarity : LabelingResult
  visual_grouping : MsgResult
  deriving Repr, DecidableEq

/-- The five check scores of the cognitive pillar, in declaration order. -/
def cogCheckScores (c : CogChecks) : List ℚ :=
  [c.element_count.score, c.legend_entries.score, c.max_encodings.score,
   c.labeling_clarity.score, c.visual_grouping.score]

structure CogResult where
  checks : CogChecks
  summary : Summary
  deriving Repr, DecidableEq

/-- `CognitiveAccessibility.run_all` (max_score = 15, 5 checks × 3). -/
def cogRunAll (e : ChartElements) : CogResult :=
  let checks : CogChecks :=
    { element_count := elementCount e
      legend_entries := legendEntriesChk e
      max_encodings := encodingComplexity e
      labeling_clarity := labelingClarity e
      visual_grouping := checkVisualGrouping e.chart_html }
  { checks := checks, summary := mkSummary (cogCheckScores checks).sum 15 }

/-! ## Motor pillar (`MotorAccessibility`) -/

/-- The `interactions` configuration slice, with `.get` defaults. -/
structure Interactions where
  keyboard : Bool := false
  hover_alternatives : Bool := false
  touch_targets : List ℚ := []
  focus_indicators : Bool := false
  html : Soup := []

structure SupportResult where
  score : ℚ
  supported : Bool
  deriving Repr, DecidableEq

/-- `keyboard_support`. -/
def keyboardSupport (i : Interactions) : SupportResult :=
  ⟨if i.keyboard then 3 else 0, i.keyboard⟩

/-- `hover_alternatives`. -/
def hoverAlternatives (i : Interactions) : SupportResult :=
  ⟨if i.hover_alternatives then 3 else 0, i.hover_alternatives⟩

structure TouchResult where
  sizes : List ℚ
  pass_rate : Option ℚ
  score : ℚ
  deriving Repr, DecidableEq

/-- `touch_targets`: empty list scores 0 (and reports no pass rate);
otherwise bucket the fraction of targets of size at least 44. -/
def touchTargets (i : Interactions) : TouchResult :=
  let sizes := i.touch_targets
  if sizes.isEmpty then ⟨sizes, none, 0⟩
  else
    let rate : ℚ := ((sizes.countP (fun s => decide (s ≥ 44))) : ℚ) / (sizes.length : ℚ)
    let score : ℚ := if rate ≥ 0.9 then 3 else if rate ≥ 0.7 then 2
      else if rate ≥ 0.4 then 1 else 0
    ⟨sizes, some (round1q (rate * 100)), score⟩

/-- `focus_indicators`. -/
def focusIndicators (i : Interactions) : SupportResult :=
  ⟨if i.focus_indicators then 3 else 0, i.focus_indicators⟩

/-- `check_skip_links`: the CSS selector
`a.skip, a[id*=skip], a[class*=skip-link], a[href^='#skip']`. -/
def checkSkipLinks (i : Interactions) : MsgResult :=
  let skip := !(findAll i.html (fun t a =>
    t == "a" && (hasClass a "skip"
      || containsSub ((getAttr a "id").getD "") "skip"
      || containsSub ((getAttr a "class").getD "") "skip-link"
      || ((getAttr a "href").getD "").startsWith "#skip"))).isEmpty
  if skip then ⟨3, "Skip links present"⟩ else ⟨0, "No skip links"⟩

structure MotorChecks where
  keyboard_support : SupportResult
  hover_alternatives : SupportResult
  touch_targets : TouchResult
  focus_indicators : SupportResult
  skip_links : MsgResult
  deriving Repr, DecidableEq

/-- The five check scores of the motor pillar, in declaration order. -/
def motorCheckScores (c : MotorChecks) : List ℚ :=
  [c.keyboard_support.score, c.hover_alternatives.score, c.touch_targets.score,
   c.focus_indicators.score, c.skip_links.score]

structure MotorResult where
  checks : MotorChecks
  summary : Summary
  deriving Repr, DecidableEq

/-- `MotorAccessibility.run_all` (max_score = 15, 5 checks × 3). -/
def motorRunAll (i : Interactions) : MotorResult :=
  let checks : MotorChecks :=
    { keyboard_support := keyboardSupport i
      hover_alternatives := hoverAlternatives i
      touch_targets := touchTargets i
      focus_indicators := focusIndicators i
      skip_links := checkSkipLinks i }
  { checks := checks, summary := mkSummary (motorCheckScores checks).sum 15 }

/-! ## Responsive pillar (`ResponsiveAccessibility`) -/

/-- The `chart_props` configuration slice, with `.get` defaults. -/
structure ChartProps where
  zoom_200 : Bool := false
  responsive : Bool := false
  text_scaling : Bool := false
  svg : Bool := false
  mobile_variant : Bool := false
  zoom_tested : Bool := false
  chart_html : Soup := []

structure TestedResult where
  score : ℚ
  tested : Bool
  deriving Repr, DecidableEq

structure FontResult where
  score : ℚ
  px_found : ℕ
  deriving Repr, DecidableEq

/-- Whether a character is Python `\s` whitespace. -/
def isWsChar (c : Char) : Bool :=
  decide (c = ' ' ∨ c = '\t' ∨ c = '\n' ∨ c = '\x0d' ∨ c = '\x0b' ∨ c = '\x0c')

/-- After at least one digit of `\d+px`: further digits, then `px`. -/
def pxAfterDigit : List Char → Bool
  | 'p' :: 'x' :: _ => true
  | c :: rest => c.isDigit && pxAfterDigit rest
  | [] => false

/-- `\d+px` at the head of the character list. -/
def digitsPx : List Char → Bool
  | c :: rest => c.isDigit && pxAfterDigit rest
  | [] => false

/-- `\s*\d+px` at the head of the character list. -/
def wsDigitsPx : List Char → Bool
  | c :: rest => if isWsChar c then wsDigitsPx rest else digitsPx (c :: rest)
  | [] => false

/-- Pattern prefix test on character lists. -/
def startsWithChars : List Char → List Char → Bool
  | [], _ => true
  | _ :: _, [] => false
  | p :: ps, c :: cs => decide (p = c) && startsWithChars ps cs

/-- `re.search(r"font-size:\s*\d+px", s)`: the pattern occurs at some
position. -/
def fontPxSearch : List Char → Bool
  | [] => false
  | c :: rest =>
    (startsWithChars "font-size:".data (c :: rest)
      && wsDigitsPx (List.drop 10 (c :: rest)))
    || fontPxSearch rest

/-- `check_font_scaling`: every element whose `style` attribute carries a
fixed-pixel font size. -/
def checkFontScaling (chartSoup : Soup) : FontResult :=
  let inlinePx := findAll chartSoup (fun _ a =>
    match getAttr a "style" with
    | some st => fontPxSearch st.data
    | none => false)
  ⟨if inlinePx.isEmpty then 3 else 0, inlinePx.length⟩

structure RespChecks where
  zoom_support : SupportResult
  responsive_layout : SupportResult
  text_scaling : SupportResult
  vector_graphics : SupportResult
  mobile_variant : SupportResult
  zoom_tested : TestedResult
  font_scaling : FontResult
  deriving Repr, DecidableEq

/-- The seven check scores of the responsive pillar, in declaration
order. -/
def respCheckScores (c : RespChecks) : List ℚ :=
  [c.zoom_support.score, c.responsive_layout.score, c.text_scaling.score,
   c.vector_graphics.score, c.mobile_variant.score, c.zoom_tested.score,
   c.font_scaling.score]

structure RespResult where
  checks : RespChecks
  summary : Summary
  deriving Repr, DecidableEq

/-- `ResponsiveAccessibility.run_all` (max_score = 21, 7 checks × 3). -/
def respRunAll (p : ChartProps) : RespResult :=
  let checks : RespChecks :=
    { zoom_support := ⟨if p.zoom_200 then 3 else 0, p.zoom_200⟩
      responsive_layout := ⟨if p.responsive then 3 else 0, p.responsive⟩
      text_scaling := ⟨if p.text_scaling then 3 else 0, p.text_scaling⟩
      vector_graphics := ⟨if p.svg then 3 else 0, p.svg⟩
      mobile_variant := ⟨if p.mobile_variant then 3 else 0, p.mobile_variant⟩
      zoom_tested := ⟨if p.zoom_tested then 3 else 0, p.zoom_tested⟩
      font_scaling := checkFontScaling p.chart_html }
  { checks := checks, summary := mkSummary (respCheckScores checks).sum 21 }

/-! ## Orchestrator (`a11y_linter.py`) -/

/-- The pillar registry `PILLARS` (title, key). -/
def PILLARS : List (String × String) :=
  [("Color Accessibility", "color_accessibility"),
   ("Screen Reader Accessibility", "screen_reader_accessibility"),
   ("Cognitive Accessibility", "cognitive_accessibility"),
   ("Motor Accessibility", "motor_accessibility"),
   ("Responsive Accessibility", "responsive_accessibility")]

/-- The configuration object consumed by `run_checks`.  `palette` is read
with `cfg["palette"]` (a KeyError when absent, hence `Option`); every
other field is read with `.get` and the default recorded here.  Markup
fields hold the parsed tree. -/
structure Config where
  viz_id : Option String := none
  name : Option String := none
  palette : Option (List String) := none
  background : String := "#ffffff"
  chart_html : Soup := []
  has_patterns : Bool := false
  alt_palettes : List (List String) := []
  chart_elements : ChartElements := {}
  interactions : Interactions := {}
  chart_props : ChartProps := {}

/-- The `checks` mapping of one report entry: the typed checks of the
pillar that ran, or the empty mapping of a degraded entry. -/
inductive PillarChecks where
  | color (c : ColorChecks)
  | screenReader (c : SRChecks)
  | cognitive (c : CogChecks)
  | motor (c : MotorChecks)
  | responsive (c : RespChecks)
  | degraded

/-- One value of the report's pillar mapping. -/
structure PillarEntry where
  checks : PillarChecks
  summary : Summary
  error : Option String

/-- The `pillar_funcs` dispatch of `run_checks`: build the evaluator for
`key` from its configuration slice and run it.  Only registry keys are
ever dispatched. -/
noncomputable def runPillarOfKey (dist : String → String → ℝ) (cfg : Config) :
    String → Except String (PillarChecks × Summary)
  | "color_accessibility" =>
    match cfg.palette with
    | none => .error "KeyError: palette"
    | some pal => do
      let r ← colorPillar dist pal cfg.background cfg.has_patterns
        cfg.alt_palettes cfg.chart_html
      pure (.color r.checks, r.summary)
  | "screen_reader_accessibility" => do
    let r ← srRunAll cfg.chart_html
    pure (.screenReader r.checks, r.summary)
  | "cognitive_accessibility" =>
    let r := cogRunAll cfg.chart_elements
    .ok (.cognitive r.checks, r.summary)
  | "motor_accessibility" =>
    let r := motorRunAll cfg.interactions
    .ok (.motor r.checks, r.summary)
  | "responsive_accessibility" =>
    let r := respRunAll cfg.chart_props
    .ok (.responsive r.checks, r.summary)
  | _ => .error "KeyError"

/-- The degraded entry substituted when a pillar evaluator faults:
`total_score=0, max_score=0, percentage=0, grade="Error"`, empty checks,
captured message. -/
def degradedEntry (e : String) : PillarEntry :=
  ⟨.degraded, ⟨0, 0, 0, "Error"⟩, some e⟩

/-- The `try/except` around one pillar invocation. -/
def entryOf : Except String (PillarChecks × Summary) → PillarEntry
  | .ok (c, s) => ⟨c, s, none⟩
  | .error e => degradedEntry e

structure Report where
  viz_id : String
  viz_name : String
  pillars : List (String × PillarEntry)

/-- The guard `not pillars_to_run or pkey in pillars_to_run` of the
`run_checks` loop: `None` and the empty subset select every pillar. -/
def wantedKey (pillarsToRun : Option (List String)) (k : String) : Bool :=
  match pillarsToRun with
  | none => true
  | some ks => ks.isEmpty || ks.contains k

/-- `run_checks(cfg, pillars_to_run)`: every registry pillar whose key is
requested is run in registry order; a fault is caught and replaced by the
degraded entry, and the loop continues. -/
noncomputable def runChecks (dist : String → String → ℝ) (cfg : Config)
    (pillarsToRun : Option (List String)) : Report :=
  { viz_id := cfg.viz_id.getD "Unknown"
    viz_name := cfg.name.getD "Unnamed Visualization"
    pillars := (PILLARS.filter (fun p => wantedKey pillarsToRun p.2)).map
      (fun p => (p.2, entryOf (runPillarOfKey dist cfg p.2))) }

/-- The registry keys. -/
def validKeys : List String := PILLARS.map (fun p => p.2)

/-- The pillar-key validation in `main`: with `--pillars` absent or an
empty list the subset passed to `run_checks` is `None`; with any
requested key not in the registry the process exits with an error before
`run_checks` is called. -/
def mainPillarSelect (requested : List String) : Except String (Option (List String)) :=
  if requested.isEmpty then .ok none
  else
    let unknown := requested.filter (fun k => !(validKeys.contains k))
    if unknown.isEmpty then .ok (some requested)
    else .error "Unknown pillars requested"

/-! ## Dispatch equations of `runPillarOfKey` for an arbitrary
configuration -/

lemma runPillarOfKey_color (dist : String → String → ℝ) (cfg : Config) :
    runPillarOfKey dist cfg "color_accessibility" =
      (match cfg.palette with
        | none => .error "KeyError: palette"
        | some pal =>
          Except.bind (colorPillar dist pal cfg.background cfg.has_patterns
              cfg.alt_palettes cfg.chart_html)
            (fun r => Except.ok (.color r.checks, r.summary))) := rfl

lemma runPillarOfKey_sr (dist : String → String → ℝ) (cfg : Config) :
    runPillarOfKey dist cfg "screen_reader_accessibility" =
      Except.bind (srRunAll cfg.chart_html)
        (fun r => Except.ok (.screenReader r.checks, r.summary)) := rfl

lemma runPillarOfKey_cog (dist : String → String → ℝ) (cfg : Config) :
    runPillarOfKey dist cfg "cognitive_accessibility" =
      .ok (.cognitive (cogRunAll cfg.chart_elements).checks,
        (cogRunAll cfg.chart_elements).summary) := rfl

lemma runPillarOfKey_motor (dist : String → String → ℝ) (cfg : Config) :
    runPillarOfKey dist cfg "motor_accessibility" =
      .ok (.motor (motorRunAll cfg.interactions).checks,
        (motorRunAll cfg.interactions).summary) := rfl

lemma runPillarOfKey_resp (dist : String → String → ℝ) (cfg : Config) :
    runPillarOfKey dist cfg "responsive_accessibility" =
      .ok (.responsive (respRunAll cfg.chart_props).checks,
        (respRunAll cfg.chart_props).summary) := rfl

/-! ## Concrete evaluations

Evaluation of each pillar on the smallest configurations used by the
claim witnesses and counterexamples: an empty / default slice for the
markup-based pillars, and an all-black single-color palette for the color
pillar (black keeps every gamma computation in the linear branch). -/

/-- A trivial stand-in for the external perceptual-distance function; the
palettes below have at most one color, so it is never consulted. -/
noncomputable def distZero : String → String → ℝ := fun _ _ => 0

/-- `ScreenReaderAccessibility("").run_all()`. -/
def srEmptyRes : SRResult :=
  { checks :=
      { alt_text := ⟨0, "No alt text or descriptions"⟩
        aria_roles := ⟨0, [], 0, 0⟩
        semantic_table := ⟨0, some "No data table", none, none⟩
        heading_structure := ⟨0, some "No headings", none⟩
        textual_equivalents := ⟨0, false, false⟩
        tabindex_order := ⟨0, []⟩ }
    summary := ⟨0, 18, 0, "Failing"⟩ }

lemma srRunAll_nil : srRunAll [] = .ok srEmptyRes := by
  have h1 : headingStructure [] = .ok ⟨0, some "No headings", none⟩ := rfl
  have h2 : checkTabindexOrder [] = .ok ⟨0, []⟩ := rfl
  simp only [srRunAll, h1, h2, Except.bind, bind, pure, Except.pure, srEmptyRes]
  norm_num [hasAltText, ariaRoles, semanticTable, checkTextualEquivalents,
    findAll, findFirst, collectL, srCheckScores, mkSummary, round1q, grade]

/-- `CognitiveAccessibility({}).run_all()`. -/
def cogDefaultRes : CogResult :=
  { checks :=
      { element_count := ⟨2, 3, 5/2⟩
        legend_entries := ⟨0, 3⟩
        max_encodings := ⟨0, 3⟩
        labeling_clarity := ⟨0, 3⟩
        visual_grouping := ⟨0, "No grouping"⟩ }
    summary := ⟨23/2, 15, 767/10, "Good"⟩ }

lemma cogRunAll_default : cogRunAll {} = cogDefaultRes := by
  norm_num [cogRunAll, elementCount, legendEntriesChk, encodingComplexity,
    labelingClarity, checkVisualGrouping, findAll, collectL, cogCheckScores,
    mkSummary, round1q, grade, round_eq, cogDefaultRes]

/-- `MotorAccessibility({}).run_all()`. -/
def motorDefaultRes : MotorResult :=
  { checks :=
      { keyboard_support := ⟨0, false⟩
        hover_alternatives := ⟨0, false⟩
        touch_targets := ⟨[], none, 0⟩
        focus_indicators := ⟨0, false⟩
        skip_links := ⟨0, "No skip links"⟩ }
    summary := ⟨0, 15, 0, "Failing"⟩ }

lemma motorRunAll_default : motorRunAll {} = motorDefaultRes := by
  norm_num [motorRunAll, keyboardSupport, hoverAlternatives, touchTargets,
    focusIndicators, checkSkipLinks, findAll, collectL, motorCheckScores,
    mkSummary, round1q, grade, motorDefaultRes]

/-- `ResponsiveAccessibility({}).run_all()` (the font-scaling check passes
on empty markup, so the default slice scores 3/21). -/
def respDefaultRes : RespResult :=
  { checks :=
      { zoom_support := ⟨0, false⟩
        responsive_layout := ⟨0, false⟩
        text_scaling := ⟨0, false⟩
        vector_graphics := ⟨0, false⟩
        mobile_variant := ⟨0, false⟩
        zoom_tested := ⟨0, false⟩
        font_scaling := ⟨3, 0⟩ }
    summary := ⟨3, 21, 143/10, "Failing"⟩ }

lemma respRunAll_default : respRunAll {} = respDefaultRes := by
  norm_num [respRunAll, checkFontScaling, findAll, collectL, respCheckScores,
    mkSummary, round1q, grade, round_eq, respDefaultRes]

/-! ### The all-black color pillar run -/

lemma hexToRgb_black : hexToRgb "#000000" = ((0 : ℝ), (0 : ℝ), (0 : ℝ)) := by
  unfold hexToRgb
  norm_num [show "#000000".data.dropWhile (fun c => c = '#') =
      ['0', '0', '0', '0', '0', '0'] from rfl,
    List.getD_cons_zero, List.getD_cons_succ, show hexDigitVal '0' = 0 from rfl]

lemma chan_zero : chan 0 = 0 := by
  rw [chan, if_pos (by norm_num)]
  norm_num

lemma lum_black : relativeLuminance (hexToRgb "#000000") = 0 := by
  rw [hexToRgb_black]
  norm_num [relativeLuminance, chan_zero]

lemma contrast_black_black : contrastValue "#000000" "#000000" = 1 := by
  rw [contrastValue]
  norm_num [lum_black]

lemma round2r_one : round2r 1 = 1 := by
  norm_num [round2r, round_eq, Int.floor_eq_iff]

/-- `ColorAccessibility(["#000000"], "#000000")`. -/
def blackCA : ColorAccessibility := { palette := ["#000000"], background := "#000000" }

lemma safety_black :
    checkPaletteSafety blackCA distZero = ⟨3, true, "Fully colorblind-safe"⟩ := rfl

lemma bc_black : checkBackgroundContrast blackCA =
    .ok ⟨0, [⟨"#000000", 1, false⟩], 0⟩ := by
  have hd : decide (contrastValue "#000000" "#000000" ≥ (4.5 : ℝ)) = false :=
    decide_eq_false (by rw [contrast_black_black]; norm_num)
  norm_num [checkBackgroundContrast, blackCA, contrast_black_black, round2r_one,
    hd, round1q]

lemma ac_black : checkAdjacentContrast blackCA = ⟨0, [], 0⟩ := by
  norm_num [checkAdjacentContrast, blackCA, round1q]

lemma gs_black : checkGrayscale blackCA = ⟨3, true, [0]⟩ := by
  norm_num [checkGrayscale, blackCA, lum_black, round2r, round_eq]

/-- The full result of the all-black color pillar run. -/
def blackColorRes : ColorResult :=
  { checks :=
      { palette_safety := ⟨3, true, "Fully colorblind-safe"⟩
        background_contrast := ⟨0, [⟨"#000000", 1, false⟩], 0⟩
        adjacent_contrast := ⟨0, [], 0⟩
        grayscale_test := ⟨3, true, [0]⟩
        pattern_encoding := ⟨0, "Color is sole encoding - risk"⟩
        alt_theme := ⟨0, "No alternate theme configured"⟩
        direct_labels := ⟨0, "No direct labels detected"⟩ }
    summary := ⟨6, 21, 143/5, "Failing"⟩ }

lemma colorRunAll_black :
    colorRunAll blackCA distZero false [] [] = .ok blackColorRes := by
  simp only [colorRunAll, safety_black, bc_black, bind, Except.bind, pure, Except.pure]
  norm_num [ac_black, gs_black, checkPatternEncoding, checkAltTheme,
    checkDirectLabels, findAll, collectL, colorCheckScores, mkSummary, round1q,
    grade, blackColorRes, round_eq]

lemma colorPillar_black :
    colorPillar distZero ["#000000"] "#000000" false [] [] = .ok blackColorRes := by
  have h0 : colorPillar distZero ["#000000"] "#000000" false [] [] =
      colorRunAll blackCA distZero false [] [] := rfl
  rw [h0, colorRunAll_black]

/-! ### Concrete configurations and reports -/

/-- A configuration whose palette is the single color black (background
black as well); every other slice is at its default. -/
def cfgBlack : Config := { palette := some ["#000000"], background := "#000000" }

/-- A configuration with one malformed palette entry. -/
def cfgBad : Config := { palette := some ["xyz"] }

/-- A configuration with an empty palette. -/
def cfgEmptyPal : Config := { palette := some [] }

lemma runChecks_black_subset :
    (runChecks distZero cfgBlack (some ["color_accessibility", "nonexistent"])).pillars =
      [("color_accessibility",
        ⟨.color blackColorRes.checks, blackColorRes.summary, none⟩)] := by
  have hp2 : entryOf (runPillarOfKey distZero cfgBlack "color_accessibility") =
      ⟨.color blackColorRes.checks, blackColorRes.summary, none⟩ := by
    rw [show runPillarOfKey distZero cfgBlack "color_accessibility" =
        Except.bind (colorPillar distZero ["#000000"] "#000000" false [] [])
          (fun r => Except.ok (.color r.checks, r.summary)) from rfl,
      colorPillar_black]
    rfl
  simp only [runChecks]
  rw [show (PILLARS.filter fun p =>
      wantedKey (some ["color_accessibility", "nonexistent"]) p.2) =
      [("Color Accessibility", "color_accessibility")] from rfl]
  simp only [List.map]
  rw [hp2]

lemma colorPillar_bad :
    colorPillar distZero ["xyz"] "#ffffff" false [] [] =
      .error "Invalid hex color: xyz" := rfl

lemma runChecks_bad :
    (runChecks distZero cfgBad none).pillars =
      [("color_accessibility", degradedEntry "Invalid hex color: xyz"),
       ("screen_reader_accessibility",
         ⟨.screenReader srEmptyRes.checks, srEmptyRes.summary, none⟩),
       ("cognitive_accessibility",
         ⟨.cognitive cogDefaultRes.checks, cogDefaultRes.summary, none⟩),
       ("motor_accessibility",
         ⟨.motor motorDefaultRes.checks, motorDefaultRes.summary, none⟩),
       ("responsive_accessibility",
         ⟨.responsive respDefaultRes.checks, respDefaultRes.summary, none⟩)] := by
  have e1 : entryOf (runPillarOfKey distZero cfgBad "color_accessibility") =
      degradedEntry "Invalid hex color: xyz" := rfl
  have e2 : entryOf (runPillarOfKey distZero cfgBad "screen_reader_accessibility") =
      ⟨.screenReader srEmptyRes.checks, srEmptyRes.summary, none⟩ := by
    rw [runPillarOfKey_sr, show cfgBad.chart_html = [] from rfl, srRunAll_nil]; rfl
  have e3 : entryOf (runPillarOfKey distZero cfgBad "cognitive_accessibility") =
      ⟨.cognitive cogDefaultRes.checks, cogDefaultRes.summary, none⟩ := by
    rw [runPillarOfKey_cog, show cfgBad.chart_elements = {} from rfl,
      cogRunAll_default]; rfl
  have e4 : entryOf (runPillarOfKey distZero cfgBad "motor_accessibility") =
      ⟨.motor motorDefaultRes.checks, motorDefaultRes.summary, none⟩ := by
    rw [runPillarOfKey_motor, show cfgBad.interactions = {} from rfl,
      motorRunAll_default]; rfl
  have e5 : entryOf (runPillarOfKey distZero cfgBad "responsive_accessibility") =
      ⟨.responsive respDefaultRes.checks, respDefaultRes.summary, none⟩ := by
    rw [runPillarOfKey_resp, show cfgBad.chart_props = {} from rfl,
      respRunAll_default]; rfl
  simp only [runChecks]
  rw [show (PILLARS.filter fun p => wantedKey none p.2) = PILLARS from rfl]
  simp only [PILLARS, List.map]
  rw [e1, e2, e3, e4, e5]

/-! ## General orchestrator lemmas -/

lemma validatePalette_nil_ok (bg : String) (hbg : validHex bg = true) :
    validatePalette [] bg = .ok () := by
  simp [validatePalette, List.find?, hbg]

lemma checkBackgroundContrast_nil (self : ColorAccessibility)
    (h : self.palette = []) :
    checkBackgroundContrast self = .error "division by zero" := by
  simp [checkBackgroundContrast, h]

lemma colorPillar_nil (dist : String → String → ℝ) (bg : String)
    (hasPatterns : Bool) (altPalettes : List (List String)) (chartSoup : Soup)
    (hbg : validHex bg = true) :
    colorPillar dist [] bg hasPatterns altPalettes chartSoup =
      .error "division by zero" := by
  simp only [colorPillar, validatePalette_nil_ok bg hbg, bind, Except.bind]
  simp only [colorRunAll,
    checkBackgroundContrast_nil { palette := [], background := bg } rfl,
    bind, Except.bind]

lemma validatePalette_error_of_bad (pal : List String) (bg : String)
    (h : ∃ c ∈ pal ++ [bg], validHex c = false) :
    ∃ c, validatePalette pal bg = .error s!"Invalid hex color: {c}" ∧
      validHex c = false := by
  have hs : ((pal ++ [bg]).find? (fun c => !validHex c)).isSome := by
    rw [List.find?_isSome]
    obtain ⟨c, hc, hv⟩ := h
    exact ⟨c, hc, by simp [hv]⟩
  obtain ⟨c, hc⟩ := Option.isSome_iff_exists.mp hs
  refine ⟨c, by simp [validatePalette, hc], ?_⟩
  have := List.find?_some hc
  simpa using this

lemma colorPillar_error_of_validate (dist : String → String → ℝ)
    (pal : List String) (bg : String) (hasPatterns : Bool)
    (altPalettes : List (List String)) (chartSoup : Soup) (e : String)
    (h : validatePalette pal bg = .error e) :
    colorPillar dist pal bg hasPatterns altPalettes chartSoup = .error e := by
  simp only [colorPillar, h, bind, Except.bind]

lemma runChecks_pillars_none (dist : String → String → ℝ) (cfg : Config) :
    (runChecks dist cfg none).pillars =
      PILLARS.map (fun p => (p.2, entryOf (runPillarOfKey dist cfg p.2))) := by
  simp only [runChecks]
  rw [List.filter_eq_self.mpr]
  intro a _
  rfl

lemma lookup_color_none (dist : String → String → ℝ) (cfg : Config) :
    List.lookup "color_accessibility" (runChecks dist cfg none).pillars =
      some (entryOf (runPillarOfKey dist cfg "color_accessibility")) := by
  rw [runChecks_pillars_none]
  simp [PILLARS, List.lookup]

lemma runChecks_keys (dist : String → String → ℝ) (cfg : Config)
    (ptr : Option (List String)) :
    (runChecks dist cfg ptr).pillars.map Prod.fst =
      validKeys.filter (wantedKey ptr) := by
  simp only [runChecks, validKeys, PILLARS]
  cases h1 : wantedKey ptr "color_accessibility" <;>
  cases h2 : wantedKey ptr "screen_reader_accessibility" <;>
  cases h3 : wantedKey ptr "cognitive_accessibility" <;>
  cases h4 : wantedKey ptr "motor_accessibility" <;>
  cases h5 : wantedKey ptr "responsive_accessibility" <;>
    simp [List.filter_cons, h1, h2, h3, h4, h5]

/-! ## Score bounds: every check score lies in `[0, 3]` -/

lemma ite3_bounds (c : Prop) [Decidable c] :
    0 ≤ (if c then (3 : ℚ) else 0) ∧ (if c then (3 : ℚ) else 0) ≤ 3 := by
  split_ifs <;> norm_num

lemma isColorblindSafe_bounds (self : ColorAccessibility)
    (dist : String → String → ℝ) (pal : List String) :
    0 ≤ (isColorblindSafe self dist pal).score ∧
      (isColorblindSafe self dist pal).score ≤ 3 := by
  simp only [isColorblindSafe]
  split_ifs <;> norm_num

lemma checkBackgroundContrast_ok_bounds (self : ColorAccessibility) (r : BCResult)
    (h : checkBackgroundContrast self = .ok r) : 0 ≤ r.score ∧ r.score ≤ 3 := by
  simp only [checkBackgroundContrast] at h
  split at h
  · simp at h
  · cases h
    split_ifs <;> norm_num

lemma checkAdjacentContrast_bounds (self : ColorAccessibility) :
    0 ≤ (checkAdjacentContrast self).score ∧
      (checkAdjacentContrast self).score ≤ 3 := by
  simp only [checkAdjacentContrast]
  split_ifs <;> norm_num

lemma checkGrayscale_bounds (self : ColorAccessibility) :
    0 ≤ (checkGrayscale self).score ∧ (checkGrayscale self).score ≤ 3 := by
  simp only [checkGrayscale]
  split_ifs <;> norm_num

lemma checkPatternEncoding_bounds (b : Bool) :
    0 ≤ (checkPatternEncoding b).score ∧ (checkPatternEncoding b).score ≤ 3 := by
  cases b <;> norm_num [checkPatternEncoding]

lemma checkAltTheme_bounds (ap : List (List String)) :
    0 ≤ (checkAltTheme ap).score ∧ (checkAltTheme ap).score ≤ 3 := by
  simp only [checkAltTheme]
  split_ifs <;> norm_num

lemma checkDirectLabels_bounds (s : Soup) :
    0 ≤ (checkDirectLabels s).score ∧ (checkDirectLabels s).score ≤ 3 := by
  simp only [checkDirectLabels]
  split_ifs <;> norm_num

lemma hasAltText_bounds (s : Soup) :
    0 ≤ (hasAltText s).score ∧ (hasAltText s).score ≤ 3 := by
  simp only [hasAltText]
  split_ifs <;> norm_num

lemma ariaRoles_bounds (s : Soup) :
    0 ≤ (ariaRoles s).score ∧ (ariaRoles s).score ≤ 3 := by
  simp only [ariaRoles]
  constructor
  · positivity
  · exact_mod_cast Nat.min_le_left 3 _

lemma semanticTable_bounds (s : Soup) :
    0 ≤ (semanticTable s).score ∧ (semanticTable s).score ≤ 3 := by
  simp only [semanticTable]
  split
  · norm_num
  · dsimp only
    constructor
    · positivity
    · exact_mod_cast Nat.min_le_left 3 _

lemma headingStructure_ok_bounds (s : Soup) (r : HeadingResult)
    (h : headingStructure s = .ok r) : 0 ≤ r.score ∧ r.score ≤ 3 := by
  simp only [headingStructure] at h
  cases hm : (findAll s fun t _ => hasHeadingPattern t.data).mapM headingLevelOf with
  | error e => rw [hm] at h; simp [bind, Except.bind] at h
  | ok hs =>
    rw [hm] at h
    simp only [bind, Except.bind] at h
    split at h <;>
      (simp only [pure, Except.pure, Except.ok.injEq] at h; subst h)
    · norm_num
    · split_ifs <;> norm_num

lemma checkTextualEquivalents_bounds (s : Soup) :
    0 ≤ (checkTextualEquivalents s).score ∧
      (checkTextualEquivalents s).score ≤ 3 := by
  simp only [checkTextualEquivalents]
  split_ifs <;> norm_num

lemma checkTabindexOrder_ok_bounds (s : Soup) (r : TabResult)
    (h : checkTabindexOrder s = .ok r) : 0 ≤ r.score ∧ r.score ≤ 3 := by
  simp only [checkTabindexOrder] at h
  cases hm : (findAll s fun _ a => hasAttr a "tabindex").mapM (fun n =>
      match ((getAttr (attrsOf n) "tabindex").getD "").toInt? with
      | some v => Except.ok v
      | none => Except.error "invalid literal for int") with
  | error e => rw [hm] at h; simp [bind, Except.bind] at h
  | ok tabs =>
    rw [hm] at h
    simp only [bind, Except.bind, pure, Except.pure, Except.ok.injEq] at h
    subst h
    split_ifs <;> norm_num

lemma elementCount_bounds (e : ChartElements) :
    0 ≤ (elementCount e).score ∧ (elementCount e).score ≤ 3 := by
  simp only [elementCount]
  split_ifs <;> norm_num

lemma legendEntriesChk_bounds (e : ChartElements) :
    0 ≤ (legendEntriesChk e).score ∧ (legendEntriesChk e).score ≤ 3 := by
  simp only [legendEntriesChk]
  split_ifs <;> norm_num

lemma encodingComplexity_bounds (e : ChartElements) :
    0 ≤ (encodingComplexity e).score ∧ (encodingComplexity e).score ≤ 3 := by
  simp only [encodingComplexity]
  split_ifs <;> norm_num

lemma labelingClarity_bounds (e : ChartElements) :
    0 ≤ (labelingClarity e).score ∧ (labelingClarity e).score ≤ 3 := by
  simp only [labelingClarity]
  split_ifs <;> norm_num

lemma checkVisualGrouping_bounds (s : Soup) :
    0 ≤ (checkVisualGrouping s).score ∧ (checkVisualGrouping s).score ≤ 3 := by
  simp only [checkVisualGrouping]
  split_ifs <;> norm_num

lemma touchTargets_bounds (i : Interactions) :
    0 ≤ (touchTargets i).score ∧ (touchTargets i).score ≤ 3 := by
  simp only [touchTargets]
  split_ifs <;> norm_num

lemma checkSkipLinks_bounds (i : Interactions) :
    0 ≤ (checkSkipLinks i).score ∧ (checkSkipLinks i).score ≤ 3 := by
  simp only [checkSkipLinks]
  split_ifs <;> norm_num

lemma checkFontScaling_bounds (s : Soup) :
    0 ≤ (checkFontScaling s).score ∧ (checkFontScaling s).score ≤ 3 := by
  simp only [checkFontScaling]
  split_ifs <;> norm_num

/-! ## Summary invariants -/

/-- The pillar-summary invariant of the spec: `max_score` is three times
the number of checks, `total_score` is the sum of the check scores and
lies in `[0, max_score]`, and `percentage` is the rounded percentage. -/
def summaryOk (scores : List ℚ) (s : Summary) : Prop :=
  s.max_score = 3 * scores.length ∧
  s.total_score = scores.sum ∧
  0 ≤ s.total_score ∧ s.total_score ≤ s.max_score ∧
  s.percentage = round1q (s.total_score / s.max_score * 100)

lemma summaryOk_mk (scores : List ℚ) (hb : ∀ x ∈ scores, 0 ≤ x ∧ x ≤ 3) :
    summaryOk scores (mkSummary scores.sum (3 * scores.length)) := by
  have h0 : 0 ≤ scores.sum := List.sum_nonneg (fun x hx => (hb x hx).1)
  have h3 : scores.sum ≤ 3 * scores.length := by
    have := List.sum_le_card_nsmul scores 3 (fun x hx => (hb x hx).2)
    simpa [nsmul_eq_mul, mul_comm] using this
  exact ⟨rfl, rfl, h0, h3, rfl⟩

/-- The checks record and summary that a successful color `run_all`
returns. -/
lemma colorRunAll_ok_shape (self : ColorAccessibility)
    (dist : String → String → ℝ) (hasPatterns : Bool)
    (altPalettes : List (List String)) (chartSoup : Soup) (res : ColorResult)
    (h : colorRunAll self dist hasPatterns altPalettes chartSoup = .ok res) :
    ∃ bc, checkBackgroundContrast self = .ok bc ∧
      res.checks = { palette_safety := checkPaletteSafety self dist
                     background_contrast := bc
                     adjacent_contrast := checkAdjacentContrast self
                     grayscale_test := checkGrayscale self
                     pattern_encoding := checkPatternEncoding hasPatterns
                     alt_theme := checkAltTheme altPalettes
                     direct_labels := checkDirectLabels chartSoup } ∧
      res.summary = mkSummary (colorCheckScores res.checks).sum 21 := by
  simp only [colorRunAll] at h
  cases hbc : checkBackgroundContrast self with
  | error e => rw [hbc] at h; simp [bind, Except.bind] at h
  | ok bc =>
    rw [hbc] at h
    simp only [bind, Except.bind, pure, Except.pure, Except.ok.injEq] at h
    exact ⟨bc, rfl, by rw [← h], by rw [← h]⟩

/-- The checks record and summary that a successful screen-reader
`run_all` returns. -/
lemma srRunAll_ok_shape (soup : Soup) (res : SRResult)
    (h : srRunAll soup = .ok res) :
    ∃ hd tab, headingStructure soup = .ok hd ∧ checkTabindexOrder soup = .ok tab ∧
      res.checks = ⟨hasAltText soup, ariaRoles soup, semanticTable soup, hd,
        checkTextualEquivalents soup, tab⟩ ∧
      res.summary = mkSummary (srCheckScores res.checks).sum 18 := by
  simp only [srRunAll] at h
  cases hh : headingStructure soup with
  | error e => rw [hh] at h; simp [bind, Except.bind] at h
  | ok hd =>
    rw [hh] at h
    cases ht : checkTabindexOrder soup with
    | error e => rw [ht] at h; simp [bind, Except.bind] at h
    | ok tab =>
      rw [ht] at h
      simp only [bind, Except.bind, pure, Except.pure, Except.ok.injEq] at h
      exact ⟨hd, tab, rfl, rfl, by rw [← h], by rw [← h]⟩

/-! ## Per-pillar summary invariants -/

lemma colorRunAll_summaryOk (self : ColorAccessibility)
    (dist : String → String → ℝ) (hasPatterns : Bool)
    (altPalettes : List (List String)) (chartSoup : Soup) (res : ColorResult)
    (h : colorRunAll self dist hasPatterns altPalettes chartSoup = .ok res) :
    summaryOk (colorCheckScores res.checks) res.summary := by
  obtain ⟨bc, hbc, hch, hsum⟩ := colorRunAll_ok_shape self dist hasPatterns
    altPalettes chartSoup res h
  have hb : ∀ x ∈ colorCheckScores res.checks, 0 ≤ x ∧ x ≤ 3 := by
    intro x hx
    rw [hch] at hx
    simp only [colorCheckScores, List.mem_cons, List.not_mem_nil, or_false] at hx
    rcases hx with rfl | rfl | rfl | rfl | rfl | rfl | rfl
    · exact isColorblindSafe_bounds self dist self.palette
    · exact checkBackgroundContrast_ok_bounds self bc hbc
    · exact checkAdjacentContrast_bounds self
    · exact checkGrayscale_bounds self
    · exact checkPatternEncoding_bounds hasPatterns
    · exact checkAltTheme_bounds altPalettes
    · exact checkDirectLabels_bounds chartSoup
  have hlen : (21 : ℚ) = 3 * ((colorCheckScores res.checks).length : ℚ) := by
    rw [hch]; simp [colorCheckScores]; norm_num
  rw [hsum, hlen]
  exact summaryOk_mk _ hb

lemma srRunAll_summaryOk (soup : Soup) (res : SRResult)
    (h : srRunAll soup = .ok res) :
    summaryOk (srCheckScores res.checks) res.summary := by
  obtain ⟨hd, tab, hhd, htab, hch, hsum⟩ := srRunAll_ok_shape soup res h
  have hb : ∀ x ∈ srCheckScores res.checks, 0 ≤ x ∧ x ≤ 3 := by
    intro x hx
    rw [hch] at hx
    simp only [srCheckScores, List.mem_cons, List.not_mem_nil, or_false] at hx
    rcases hx with rfl | rfl | rfl | rfl | rfl | rfl
    · exact hasAltText_bounds soup
    · exact ariaRoles_bounds soup
    · exact semanticTable_bounds soup
    · exact headingStructure_ok_bounds soup hd hhd
    · exact checkTextualEquivalents_bounds soup
    · exact checkTabindexOrder_ok_bounds soup tab htab
  have hlen : (18 : ℚ) = 3 * ((srCheckScores res.checks).length : ℚ) := by
    rw [hch]; simp [srCheckScores]; norm_num
  rw [hsum, hlen]
  exact summaryOk_mk _ hb

lemma cogRunAll_summaryOk (e : ChartElements) :
    summaryOk (cogCheckScores (cogRunAll e).checks) (cogRunAll e).summary := by
  have hb : ∀ x ∈ cogCheckScores (cogRunAll e).checks, 0 ≤ x ∧ x ≤ 3 := by
    intro x hx
    simp only [cogRunAll, cogCheckScores, List.mem_cons, List.not_mem_nil,
      or_false] at hx
    rcases hx with rfl | rfl | rfl | rfl | rfl
    · exact elementCount_bounds e
    · exact legendEntriesChk_bounds e
    · exact encodingComplexity_bounds e
    · exact labelingClarity_bounds e
    · exact checkVisualGrouping_bounds e.chart_html
  have hs : (cogRunAll e).summary = mkSummary (cogCheckScores (cogRunAll e).checks).sum 15 := rfl
  have hlen : (15 : ℚ) = 3 * ((cogCheckScores (cogRunAll e).checks).length : ℚ) := by
    simp [cogCheckScores]; norm_num
  rw [hs, hlen]
  exact summaryOk_mk _ hb

lemma motorRunAll_summaryOk (i : Interactions) :
    summaryOk (motorCheckScores (motorRunAll i).checks) (motorRunAll i).summary := by
  have hb : ∀ x ∈ motorCheckScores (motorRunAll i).checks, 0 ≤ x ∧ x ≤ 3 := by
    intro x hx
    simp only [motorRunAll, motorCheckScores, List.mem_cons, List.not_mem_nil,
      or_false] at hx
    rcases hx with rfl | rfl | rfl | rfl | rfl
    · exact ite3_bounds _
    · exact ite3_bounds _
    · exact touchTargets_bounds i
    · exact ite3_bounds _
    · exact checkSkipLinks_bounds i
  have hs : (motorRunAll i).summary = mkSummary (motorCheckScores (motorRunAll i).checks).sum 15 := rfl
  have hlen : (15 : ℚ) = 3 * ((motorCheckScores (motorRunAll i).checks).length : ℚ) := by
    simp [motorCheckScores]; norm_num
  rw [hs, hlen]
  exact summaryOk_mk _ hb

lemma respRunAll_summaryOk (p : ChartProps) :
    summaryOk (respCheckScores (respRunAll p).checks) (respRunAll p).summary := by
  have hb : ∀ x ∈ respCheckScores (respRunAll p).checks, 0 ≤ x ∧ x ≤ 3 := by
    intro x hx
    simp only [respRunAll, respCheckScores, List.mem_cons, List.not_mem_nil,
      or_false] at hx
    rcases hx with rfl | rfl | rfl | rfl | rfl | rfl | rfl
    · exact ite3_bounds _
    · exact ite3_bounds _
    · exact ite3_bounds _
    · exact ite3_bounds _
    · exact ite3_bounds _
    · exact ite3_bounds _
    · exact checkFontScaling_bounds p.chart_html
  have hs : (respRunAll p).summary = mkSummary (respCheckScores (respRunAll p).checks).sum 21 := rfl
  have hlen : (21 : ℚ) = 3 * ((respCheckScores (respRunAll p).checks).length : ℚ) := by
    simp [respCheckScores]; norm_num
  rw [hs, hlen]
  exact summaryOk_mk _ hb

/-! ## Luminance and contrast bounds -/

lemma hexDigitVal_le (c : Char) : hexDigitVal c ≤ 15 := by
  unfold hexDigitVal
  split_ifs <;> omega

lemma hexPair_mem (c1 c2 : Char) :
    0 ≤ ((16 * hexDigitVal c1 + hexDigitVal c2 : ℕ) : ℝ) / 255 ∧
      ((16 * hexDigitVal c1 + hexDigitVal c2 : ℕ) : ℝ) / 255 ≤ 1 := by
  have h1 := hexDigitVal_le c1
  have h2 := hexDigitVal_le c2
  constructor
  · positivity
  · rw [div_le_one (by norm_num)]
    exact_mod_cast Nat.le_of_lt_succ (by omega)

lemma hexToRgb_mem (s : String) :
    (0 ≤ (hexToRgb s).1 ∧ (hexToRgb s).1 ≤ 1) ∧
    (0 ≤ (hexToRgb s).2.1 ∧ (hexToRgb s).2.1 ≤ 1) ∧
    (0 ≤ (hexToRgb s).2.2 ∧ (hexToRgb s).2.2 ≤ 1) := by
  unfold hexToRgb
  exact ⟨hexPair_mem _ _, hexPair_mem _ _, hexPair_mem _ _⟩

lemma chan_mem (c : ℝ) (h0 : 0 ≤ c) (h1 : c ≤ 1) : 0 ≤ chan c ∧ chan c ≤ 1 := by
  unfold chan
  split_ifs with h
  · constructor
    · positivity
    · rw [div_le_one (by norm_num)]
      linarith
  · constructor
    · exact Real.rpow_nonneg (by positivity) _
    · refine Real.rpow_le_one (by positivity) ?_ (by norm_num)
      rw [div_le_one (by norm_num)]
      linarith

lemma relLum_mem (rgb : ℝ × ℝ × ℝ)
    (h1 : 0 ≤ rgb.1 ∧ rgb.1 ≤ 1) (h2 : 0 ≤ rgb.2.1 ∧ rgb.2.1 ≤ 1)
    (h3 : 0 ≤ rgb.2.2 ∧ rgb.2.2 ≤ 1) :
    0 ≤ relativeLuminance rgb ∧ relativeLuminance rgb ≤ 1 := by
  obtain ⟨a0, a1⟩ := chan_mem rgb.1 h1.1 h1.2
  obtain ⟨b0, b1⟩ := chan_mem rgb.2.1 h2.1 h2.2
  obtain ⟨c0, c1⟩ := chan_mem rgb.2.2 h3.1 h3.2
  unfold relativeLuminance
  constructor <;> nlinarith

lemma lum_hex_mem (s : String) :
    0 ≤ relativeLuminance (hexToRgb s) ∧ relativeLuminance (hexToRgb s) ≤ 1 := by
  obtain ⟨h1, h2, h3⟩ := hexToRgb_mem s
  exact relLum_mem _ h1 h2 h3

/-! ## Grade monotonicity -/

lemma grade_mono (p1 p2 : ℚ) (h : p1 ≤ p2) :
    gradeRank (grade p1) ≤ gradeRank (grade p2) := by
  unfold grade
  split_ifs <;>
    simp only [show gradeRank "Excellent" = 4 from rfl,
      show gradeRank "Good" = 3 from rfl, show gradeRank "Fair" = 2 from rfl,
      show gradeRank "Poor" = 1 from rfl,
      show gradeRank "Failing" = 0 from rfl] <;>
    linarith

/-! ## Claims -/

/-- C1: the grading utility maps a percentage to an ordinal label through
a monotonically increasing threshold table (for `p1 ≤ p2` the label of
`p1` is ordinally at most the label of `p2`), and every pillar summary's
grade equals `grade` applied to that pillar's percentage
`total_score / max_score * 100`. -/
theorem C1_grade_monotone_pillar_grades :
    (∀ p1 p2 : ℚ, p1 ≤ p2 → gradeRank (grade p1) ≤ gradeRank (grade p2)) ∧
    (∀ (self : ColorAccessibility) (dist : String → String → ℝ)
      (hasPatterns : Bool) (altPalettes : List (List String))
      (chartSoup : Soup) (res : ColorResult),
      colorRunAll self dist hasPatterns altPalettes chartSoup = .ok res →
        res.summary.gradeLabel =
          grade (res.summary.total_score / res.summary.max_score * 100)) ∧
    (∀ (soup : Soup) (res : SRResult), srRunAll soup = .ok res →
      res.summary.gradeLabel =
        grade (res.summary.total_score / res.summary.max_score * 100)) ∧
    (∀ e : ChartElements, (cogRunAll e).summary.gradeLabel =
      grade ((cogRunAll e).summary.total_score /
        (cogRunAll e).summary.max_score * 100)) ∧
    (∀ i : Interactions, (motorRunAll i).summary.gradeLabel =
      grade ((motorRunAll i).summary.total_score /
        (motorRunAll i).summary.max_score * 100)) ∧
    (∀ p : ChartProps, (respRunAll p).summary.gradeLabel =
      grade ((respRunAll p).summary.total_score /
        (respRunAll p).summary.max_score * 100)) := by
  refine ⟨grade_mono, ?_, ?_, fun e => rfl, fun i => rfl, fun p => rfl⟩
  · intro self dist hasPatterns altPalettes chartSoup res h
    obtain ⟨bc, _, _, hsum⟩ :=
      colorRunAll_ok_shape self dist hasPatterns altPalettes chartSoup res h
    rw [hsum]
    rfl
  · intro soup res h
    obtain ⟨hd, tab, _, _, _, hsum⟩ := srRunAll_ok_shape soup res h
    rw [hsum]
    rfl

/-- Witness for C1 at concrete inputs: the monotonicity at `0 ≤ 50`, the
color pillar at the all-black run, the screen-reader pillar at the empty
document, and the remaining pillars at their default slices. -/
theorem C1_witness :
    ((0 : ℚ) ≤ 50 ∧ gradeRank (grade 0) ≤ gradeRank (grade 50)) ∧
    (colorRunAll blackCA distZero false [] [] = .ok blackColorRes ∧
      blackColorRes.summary.gradeLabel =
        grade (blackColorRes.summary.total_score /
          blackColorRes.summary.max_score * 100)) ∧
    (srRunAll [] = .ok srEmptyRes ∧
      srEmptyRes.summary.gradeLabel =
        grade (srEmptyRes.summary.total_score /
          srEmptyRes.summary.max_score * 100)) ∧
    (cogRunAll {}).summary.gradeLabel =
      grade ((cogRunAll {}).summary.total_score /
        (cogRunAll {}).summary.max_score * 100) :=
  ⟨⟨by norm_num, C1_grade_monotone_pillar_grades.1 0 50 (by norm_num)⟩,
   ⟨colorRunAll_black,
    C1_grade_monotone_pillar_grades.2.1 blackCA distZero false [] []
      blackColorRes colorRunAll_black⟩,
   ⟨srRunAll_nil,
    C1_grade_monotone_pillar_grades.2.2.1 [] srEmptyRes srRunAll_nil⟩,
   C1_grade_monotone_pillar_grades.2.2.2.1 {}⟩

/-- C2 counterexample: with the malformed palette entry `"xyz"`, the
constructor does raise (`Invalid hex color: xyz`), but the audit still
produces a report covering all five pillars — the screen-reader pillar
(among others) carries a successful, non-error entry — contradicting
"the audit does not continue to produce a report covering the remaining
pillars". -/
theorem C2_counterexample :
    validatePalette ["xyz"] "#ffffff" = .error "Invalid hex color: xyz" ∧
    (runChecks distZero cfgBad none).pillars.map Prod.fst =
      ["color_accessibility", "screen_reader_accessibility",
       "cognitive_accessibility", "motor_accessibility",
       "responsive_accessibility"] ∧
    List.lookup "screen_reader_accessibility" (runChecks distZero cfgBad none).pillars =
      some ⟨.screenReader srEmptyRes.checks, srEmptyRes.summary, none⟩ := by
  refine ⟨rfl, ?_, ?_⟩
  · rw [runChecks_bad]
    rfl
  · rw [runChecks_bad]
    rfl

/-- C2 (amended): a malformed palette entry or background makes the
Color-pillar constructor raise `ValueError` (the `InvalidColorFormat` of
the spec), but the orchestrator catches it: the color pillar's entry is
replaced by the degraded `grade="Error"` entry and the audit continues,
producing a report that still covers every registry pillar. -/
theorem C2_amended (dist : String → String → ℝ) (cfg : Config)
    (pal : List String) (hpal : cfg.palette = some pal)
    (hbad : ∃ c ∈ pal ++ [cfg.background], validHex c = false) :
    (∃ c : String, validatePalette pal cfg.background =
      .error s!"Invalid hex color: {c}") ∧
    (∃ e : String, List.lookup "color_accessibility" (runChecks dist cfg none).pillars =
      some (degradedEntry e)) ∧
    (runChecks dist cfg none).pillars.map Prod.fst = validKeys := by
  obtain ⟨c, hv, hcbad⟩ := validatePalette_error_of_bad pal cfg.background hbad
  refine ⟨⟨c, hv⟩, ⟨s!"Invalid hex color: {c}", ?_⟩, ?_⟩
  · rw [lookup_color_none, runPillarOfKey_color, hpal]
    dsimp only
    rw [colorPillar_error_of_validate dist pal cfg.background cfg.has_patterns
      cfg.alt_palettes cfg.chart_html _ hv]
    rfl
  · rw [runChecks_keys]
    rfl

/-- Witness for the amended C2 at the concrete bad configuration. -/
theorem C2_witness :
    cfgBad.palette = some ["xyz"] ∧
    (∃ c ∈ ["xyz"] ++ [cfgBad.background], validHex c = false) ∧
    ((∃ c : String, validatePalette ["xyz"] cfgBad.background =
        .error s!"Invalid hex color: {c}") ∧
     (∃ e : String, List.lookup "color_accessibility" (runChecks distZero cfgBad none).pillars =
        some (degradedEntry e)) ∧
     (runChecks distZero cfgBad none).pillars.map Prod.fst = validKeys) :=
  ⟨rfl, ⟨"xyz", by decide, by decide⟩,
   C2_amended distZero cfgBad ["xyz"] rfl ⟨"xyz", by decide, by decide⟩⟩

/-- C3 counterexample: requesting the subset
`{"color_accessibility", "nonexistent"}`, which contains a key not in
the registry, does not raise: `run_checks` returns a report in which the
color evaluator has executed and produced a successful entry —
contradicting "raises UnknownPillarRequested before any pillar evaluator
executes (no check is evaluated and no pillar entry is produced)". -/
theorem C3_counterexample :
    validKeys.contains "nonexistent" = false ∧
    (runChecks distZero cfgBlack (some ["color_accessibility", "nonexistent"])).pillars =
      [("color_accessibility",
        ⟨.color blackColorRes.checks, blackColorRes.summary, none⟩)] :=
  ⟨by decide, runChecks_black_subset⟩

/-- C3 (amended): unknown pillar keys are rejected in the CLI entry point
(`main`) before `run_checks` is called, while `run_checks` itself never
raises: it runs exactly the requested keys that are in the registry and
silently ignores unknown ones. -/
theorem C3_amended :
    (∀ req : List String, (∃ k ∈ req, validKeys.contains k = false) →
      mainPillarSelect req = .error "Unknown pillars requested") ∧
    (∀ (dist : String → String → ℝ) (cfg : Config) (ks : List String),
      (runChecks dist cfg (some ks)).pillars.map Prod.fst =
        validKeys.filter (wantedKey (some ks))) := by
  constructor
  · rintro req ⟨k, hk, hbad⟩
    have hne : req ≠ [] := List.ne_nil_of_mem hk
    have hmem : k ∈ req.filter (fun k => !(validKeys.contains k)) :=
      List.mem_filter.mpr ⟨hk, by rw [hbad]; rfl⟩
    have hfil : req.filter (fun k => !(validKeys.contains k)) ≠ [] :=
      List.ne_nil_of_mem hmem
    unfold mainPillarSelect
    rw [if_neg (fun hc => hne (List.isEmpty_iff.mp hc))]
    exact if_neg (fun hc => hfil (List.isEmpty_iff.mp hc))
  · intro dist cfg ks
    exact runChecks_keys dist cfg (some ks)

/-- Witness for the amended C3 at the concrete request
`["nonexistent"]` and at the mixed subset of the counterexample. -/
theorem C3_witness :
    ("nonexistent" ∈ ["nonexistent"] ∧
      validKeys.contains "nonexistent" = false) ∧
    mainPillarSelect ["nonexistent"] = .error "Unknown pillars requested" ∧
    (runChecks distZero cfgBlack (some ["color_accessibility", "nonexistent"])).pillars.map
        Prod.fst =
      validKeys.filter (wantedKey (some ["color_accessibility", "nonexistent"])) :=
  ⟨⟨by decide, by decide⟩,
   C3_amended.1 ["nonexistent"] ⟨"nonexistent", by decide, by decide⟩,
   C3_amended.2 distZero cfgBlack ["color_accessibility", "nonexistent"]⟩

/-- C4: every pillar result successfully produced by a `run_all`
satisfies the summary invariant: `max_score` is 3 times the number of
checks, `total_score` is the sum of the individual check scores and lies
in `[0, max_score]`, and `percentage = round(total/max*100, 1)`. -/
theorem C4_summary_invariants :
    (∀ (self : ColorAccessibility) (dist : String → String → ℝ)
      (hasPatterns : Bool) (altPalettes : List (List String))
      (chartSoup : Soup) (res : ColorResult),
      colorRunAll self dist hasPatterns altPalettes chartSoup = .ok res →
        summaryOk (colorCheckScores res.checks) res.summary) ∧
    (∀ (soup : Soup) (res : SRResult), srRunAll soup = .ok res →
      summaryOk (srCheckScores res.checks) res.summary) ∧
    (∀ e : ChartElements,
      summaryOk (cogCheckScores (cogRunAll e).checks) (cogRunAll e).summary) ∧
    (∀ i : Interactions,
      summaryOk (motorCheckScores (motorRunAll i).checks) (motorRunAll i).summary) ∧
    (∀ p : ChartProps,
      summaryOk (respCheckScores (respRunAll p).checks) (respRunAll p).summary) :=
  ⟨colorRunAll_summaryOk, srRunAll_summaryOk, cogRunAll_summaryOk,
   motorRunAll_summaryOk, respRunAll_summaryOk⟩

/-- Witness for C4: the color pillar at the all-black run, the
screen-reader pillar at the empty document, the cognitive pillar at its
default slice. -/
theorem C4_witness :
    (colorRunAll blackCA distZero false [] [] = .ok blackColorRes ∧
      summaryOk (colorCheckScores blackColorRes.checks) blackColorRes.summary) ∧
    (srRunAll [] = .ok srEmptyRes ∧
      summaryOk (srCheckScores srEmptyRes.checks) srEmptyRes.summary) ∧
    summaryOk (cogCheckScores (cogRunAll {}).checks) (cogRunAll {}).summary :=
  ⟨⟨colorRunAll_black,
    C4_summary_invariants.1 blackCA distZero false [] [] blackColorRes
      colorRunAll_black⟩,
   ⟨srRunAll_nil, C4_summary_invariants.2.1 [] srEmptyRes srRunAll_nil⟩,
   C4_summary_invariants.2.2.1 {}⟩

/-- C5: for valid 6-hex-digit colors the WCAG contrast is symmetric and
lies in `[1, 21]`. -/
theorem C5_contrast_symm_bounds (a b : String)
    (ha : validHex a = true) (hb : validHex b = true) :
    contrastValue a b = contrastValue b a ∧
    1 ≤ contrastValue a b ∧ contrastValue a b ≤ 21 := by
  obtain ⟨la0, la1⟩ := lum_hex_mem a
  obtain ⟨lb0, lb1⟩ := lum_hex_mem b
  simp only [contrastValue]
  refine ⟨by rw [max_comm, min_comm], ?_, ?_⟩
  · have hpos : 0 < min (relativeLuminance (hexToRgb a))
        (relativeLuminance (hexToRgb b)) + 0.05 := by
      have := le_min la0 lb0
      linarith
    rw [le_div_iff₀ hpos]
    have := min_le_max (a := relativeLuminance (hexToRgb a))
      (b := relativeLuminance (hexToRgb b))
    linarith
  · have hpos : 0 < min (relativeLuminance (hexToRgb a))
        (relativeLuminance (hexToRgb b)) + 0.05 := by
      have := le_min la0 lb0
      linarith
    rw [div_le_iff₀ hpos]
    have hmax : max (relativeLuminance (hexToRgb a))
        (relativeLuminance (hexToRgb b)) ≤ 1 := max_le la1 lb1
    have hmin : 0 ≤ min (relativeLuminance (hexToRgb a))
        (relativeLuminance (hexToRgb b)) := le_min la0 lb0
    linarith

/-- Witness for C5 at black and white. -/
theorem C5_witness :
    validHex "#000000" = true ∧ validHex "#ffffff" = true ∧
    (contrastValue "#000000" "#ffffff" = contrastValue "#ffffff" "#000000" ∧
     1 ≤ contrastValue "#000000" "#ffffff" ∧
     contrastValue "#000000" "#ffffff" ≤ 21) :=
  ⟨by decide, by decide,
   C5_contrast_symm_bounds "#000000" "#ffffff" (by decide) (by decide)⟩

/-- C6: for the empty markup string the screen-reader pillar's `run_all`
completes without exception; its alt-text check scores 0 with the
"no text found" message and its semantic-table check scores 0 with the
"no data table" message. -/
theorem C6_empty_markup_graceful :
    srRunAll [] = .ok srEmptyRes ∧
    srEmptyRes.checks.alt_text.score = 0 ∧
    srEmptyRes.checks.alt_text.message = "No alt text or descriptions" ∧
    srEmptyRes.checks.semantic_table.score = 0 ∧
    srEmptyRes.checks.semantic_table.message = some "No data table" :=
  ⟨srRunAll_nil, rfl, rfl, rfl, rfl⟩

/-- C7: the touch-target check scores 0 on an empty list and otherwise
buckets the fraction of targets of size at least 44 at 0.9 / 0.7 / 0.4;
on `[50, 50, 30, 50]` the pass rate is 0.75 (reported as 75.0) and the
score is 2. -/
theorem C7_touch_targets (i : Interactions) :
    (i.touch_targets = [] → (touchTargets i).score = 0) ∧
    (i.touch_targets ≠ [] →
      (touchTargets i).score =
        (if ((i.touch_targets.countP (fun s => decide (s ≥ 44)) : ℚ) /
            (i.touch_targets.length : ℚ)) ≥ 0.9 then 3
         else if ((i.touch_targets.countP (fun s => decide (s ≥ 44)) : ℚ) /
            (i.touch_targets.length : ℚ)) ≥ 0.7 then 2
         else if ((i.touch_targets.countP (fun s => decide (s ≥ 44)) : ℚ) /
            (i.touch_targets.length : ℚ)) ≥ 0.4 then 1 else 0)) ∧
    (touchTargets { touch_targets := [50, 50, 30, 50] }).score = 2 ∧
    (touchTargets { touch_targets := [50, 50, 30, 50] }).pass_rate = some 75 := by
  refine ⟨?_, ?_, ?_, ?_⟩
  · intro h
    simp [touchTargets, h]
  · intro h
    rw [touchTargets, if_neg (by simp [List.isEmpty_iff, h])]
  · norm_num [touchTargets, List.countP_cons, decide_eq_true_eq]
  · norm_num [touchTargets, List.countP_cons, decide_eq_true_eq, round1q]

/-- Witness for C7 at the empty and the four-target lists. -/
theorem C7_witness :
    (({ touch_targets := [] } : Interactions).touch_targets = [] ∧
      (touchTargets { touch_targets := [] }).score = 0) ∧
    (({ touch_targets := [50, 50, 30, 50] } : Interactions).touch_targets ≠ [] ∧
      (touchTargets { touch_targets := [50, 50, 30, 50] }).score = 2) :=
  ⟨⟨rfl, (C7_touch_targets { touch_targets := [] }).1 rfl⟩,
   ⟨by simp, (C7_touch_targets { touch_targets := [50, 50, 30, 50] }).2.2.1⟩⟩

/-- C8: the element-count check scores the series count (1 → 3, ≤12 → 2,
≤20 → 1, else 0) and the gridline count (≤1 → 3, ≤3 → 2, ≤5 → 1, else 0)
separately, and its final score is the arithmetic mean of the two. -/
theorem C8_element_count (e : ChartElements) :
    (elementCount e).series_score =
      (if e.series = 1 then 3 else if e.series ≤ 12 then 2
       else if e.series ≤ 20 then 1 else 0) ∧
    (elementCount e).gridlines_score =
      (if e.gridlines ≤ 1 then 3 else if e.gridlines ≤ 3 then 2
       else if e.gridlines ≤ 5 then 1 else 0) ∧
    (elementCount e).score =
      ((elementCount e).series_score + (elementCount e).gridlines_score) / 2 :=
  ⟨rfl, rfl, rfl⟩

/-- C9: an empty palette passes construction-time validation (zero
entries plus the background), but the background-contrast check divides
by the palette length, so the color pillar's `run_all` faults with
Python's ZeroDivisionError and the orchestrator substitutes the degraded
`total_score=0, max_score=0, grade="Error"` entry. -/
theorem C9_empty_palette (dist : String → String → ℝ) (cfg : Config)
    (hpal : cfg.palette = some []) (hbg : validHex cfg.background = true) :
    validatePalette [] cfg.background = .ok () ∧
    colorPillar dist [] cfg.background cfg.has_patterns cfg.alt_palettes
      cfg.chart_html = .error "division by zero" ∧
    List.lookup "color_accessibility" (runChecks dist cfg none).pillars =
      some (degradedEntry "division by zero") := by
  refine ⟨validatePalette_nil_ok _ hbg,
    colorPillar_nil dist cfg.background cfg.has_patterns cfg.alt_palettes
      cfg.chart_html hbg, ?_⟩
  rw [lookup_color_none, runPillarOfKey_color, hpal]
  dsimp only
  rw [colorPillar_nil dist cfg.background cfg.has_patterns cfg.alt_palettes
    cfg.chart_html hbg]
  rfl

/-- Witness for C9 at the concrete empty-palette configuration. -/
theorem C9_witness :
    cfgEmptyPal.palette = some [] ∧ validHex cfgEmptyPal.background = true ∧
    (validatePalette [] cfgEmptyPal.background = .ok () ∧
     colorPillar distZero [] cfgEmptyPal.background cfgEmptyPal.has_patterns
       cfgEmptyPal.alt_palettes cfgEmptyPal.chart_html = .error "division by zero" ∧
     List.lookup "color_accessibility" (runChecks distZero cfgEmptyPal none).pillars =
       some (degradedEntry "division by zero")) :=
  ⟨rfl, by decide, C9_empty_palette distZero cfgEmptyPal rfl (by decide)⟩

/-- C10: with fewer than two palette colors the adjacent-contrast check
does not fault: there are no consecutive pairs, the denominator falls
back to 1, and the result is score 0 with an empty details list and pass
rate 0.0. -/
theorem C10_adjacent_few (self : ColorAccessibility)
    (h : self.palette.length < 2) :
    checkAdjacentContrast self = ⟨0, [], 0⟩ := by
  rcases hp : self.palette with _ | ⟨x, _ | ⟨y, t⟩⟩
  · norm_num [checkAdjacentContrast, hp, round1q]
  · norm_num [checkAdjacentContrast, hp, round1q]
  · rw [hp] at h
    simp at h
    omega

/-- Witness for C10 at the singleton black palette. -/
theorem C10_witness :
    blackCA.palette.length < 2 ∧ checkAdjacentContrast blackCA = ⟨0, [], 0⟩ :=
  ⟨by norm_num [blackCA], C10_adjacent_few blackCA (by norm_num [blackCA])⟩

end A11y
